import Mathlib

/-!
Verification of the record-matching / field-comparison core of the
`Data-Porto` document-automation repository.

The development shallowly embeds, over `List Char` / `String` / `ℚ` / `ℤ`:

* the field normalizers of `crosscheck/crosscheck_engine.py`
  (`_normalize`, `_normalize_numeric`, `_is_numeric_field`, `_fuzzy_contains`);
* the text-similarity scorer of `ml/text_similarity.py`
  (`_normalize_text`, `score`, `classify_match`); the TF-IDF cosine backend
  is third-party library code (scikit-learn), so it is abstracted as an
  explicit function parameter `cos` handed to `score`;
* the rule part of `ml/anomaly_detector.py` (`_to_float`,
  `_normalize_tarif`, `check_single`, the tariff tables);
* the crosscheck engine of `crosscheck/crosscheck_engine.py`
  (`_find_matching_row`, `_compare_field`, `_compute_meter_deviation`,
  `_compute_billing_deviation`, `_no_match_result`, `run`).

Python dynamic values that flow through the core are modelled by `PyVal`
(`None`, float NaN, strings, integer-valued numbers).  Machine floats with
integral values are modelled exactly by `ℤ` (and ratios of them by `ℚ`);
Python renders such floats as `"<digits>.0"`, which `pyFloatStr` mirrors.
String case mapping is modelled for ASCII (the data handled by the tool is
ASCII), and `float()` parsing is modelled for optionally-signed decimal-digit
strings (exponent, infinity and underscore forms are not modelled).
The wall-clock `checked_at` timestamp of the summary is impure metadata and
is not modelled.
-/

/-- A dynamic Python value as it occurs in the data-flow of the core:
`None`, a float NaN (pandas missing cell), a string, or an integer-valued
number. -/
inductive PyVal where
  | none
  | nan
  | str (s : String)
  | int (n : Int)
deriving DecidableEq, Repr

/-- Python truthiness of a `PyVal` (`bool(value)`): `None` is falsy, NaN is
truthy, a string is truthy iff non-empty, a number is truthy iff non-zero. -/
def truthy : PyVal → Bool
  | .none => false
  | .nan => true
  | .str s => s ≠ ""
  | .int n => n ≠ 0

/-- Python `str(value)`: identity on strings, `"nan"` for NaN, `"None"` for
`None`, decimal rendering for integers. -/
def pyStr : PyVal → String
  | .none => "None"
  | .nan => "nan"
  | .str s => s
  | .int n => toString n

/-- Python float `str` of an integral float value (`str(250.0) = "250.0"`). -/
def pyFloatStr (n : Int) : String := toString n ++ ".0"

/-- ASCII whitespace recognized by Python `str.strip` and by `\s`. -/
def isPySpace (c : Char) : Bool :=
  c = ' ' ∨ c = '\t' ∨ c = '\n' ∨ c = '\r' ∨ c = '\x0b' ∨ c = '\x0c'

/-- A regex word character (`\w`), ASCII fragment. -/
def isWordChar (c : Char) : Bool := c.isAlphanum || c = '_'

/-- `str.strip()`: drop leading and trailing whitespace. -/
def stripChars (l : List Char) : List Char :=
  ((l.dropWhile isPySpace).reverse.dropWhile isPySpace).reverse

theorem length_dropWhile_le' (p : Char → Bool) (l : List Char) :
    (l.dropWhile p).length ≤ l.length := by
  induction l with
  | nil => simp [List.dropWhile]
  | cons c rest ih =>
    by_cases h : p c <;> simp [List.dropWhile, h] <;> omega

/-- `re.sub(r"X+", r, s)` for a character class `p`: replace every maximal
run of `p`-characters by the single character `r`.  The Boolean argument
records whether the scan is currently inside a run. -/
def collapseRunsAux (p : Char → Bool) (r : Char) : Bool → List Char → List Char
  | _, [] => []
  | inRun, c :: rest =>
    if p c then
      if inRun then collapseRunsAux p r true rest
      else r :: collapseRunsAux p r true rest
    else c :: collapseRunsAux p r false rest

/-- `re.sub(r"X+", r, s)` for a character class `p`. -/
def collapseRuns (p : Char → Bool) (r : Char) (l : List Char) : List Char :=
  collapseRunsAux p r false l

/-- Does `pat` occur at the head of `l`? (prefix test used by `str.replace`
and substring containment). -/
def headMatches : List Char → List Char → Bool
  | [], _ => true
  | _ :: _, [] => false
  | x :: xs, y :: ys => x = y && headMatches xs ys

/-- Python substring containment `a in b` over char lists. -/
def containsSeq (a : List Char) : List Char → Bool
  | [] => headMatches a []
  | c :: rest => headMatches a (c :: rest) || containsSeq a rest

/-- Python `str.replace(pat, repl)`, structured over a fuel argument so that
the kernel can evaluate it; one unit of fuel is spent per scan step and a
step always consumes at least one character, so `l.length` fuel suffices. -/
def replaceSeqF (pat repl : List Char) : Nat → List Char → List Char
  | _, [] => []
  | 0, l => l
  | fuel + 1, c :: rest =>
    if pat ≠ [] ∧ headMatches pat (c :: rest) = true then
      repl ++ replaceSeqF pat repl fuel ((c :: rest).drop pat.length)
    else c :: replaceSeqF pat repl fuel rest

/-- Python `str.replace(pat, repl)`: left-to-right, non-overlapping. -/
def replaceSeq (pat repl : List Char) (l : List Char) : List Char :=
  replaceSeqF pat repl l.length l

/-- Scanner state for `re.sub(r"[Rr][Pp]\.?\s*", "", s)`: `normal` scanning,
`afterRp` (just matched the letter pair; the greedy `\.?` may still consume
one dot, and `\s*` any whitespace), `afterRpDot` (the optional dot has been
consumed or refused; only `\s*` is still active). -/
inductive RpMode where
  | normal
  | afterRp
  | afterRpDot
deriving DecidableEq, Repr

/-- Single left-to-right pass implementing
`re.sub(r"[Rr][Pp]\.?\s*", "", s)` with non-overlapping matches. -/
def rpAux : RpMode → List Char → List Char
  | _, [] => []
  | mode, c1 :: rest =>
    if (mode = .afterRp ∧ (c1 = '.' ∨ isPySpace c1 = true)) ∨
       (mode = .afterRpDot ∧ isPySpace c1 = true) then
      rpAux .afterRpDot rest
    else
      match rest with
      | [] => [c1]
      | c2 :: rest2 =>
        if (c1 = 'R' ∨ c1 = 'r') ∧ (c2 = 'P' ∨ c2 = 'p') then
          rpAux .afterRp rest2
        else c1 :: rpAux .normal (c2 :: rest2)

/-- `re.sub(r"[Rr][Pp]\.?\s*", "", s)`: remove every occurrence of an
`R`/`r` followed by `P`/`p`, an optional dot and any following whitespace. -/
def removeRpSub (l : List Char) : List Char := rpAux .normal l

/-- Is a separator character removed by `re.sub(r"[.,\s]", "", s)`? -/
def isNumSep (c : Char) : Bool := c = '.' ∨ c = ',' ∨ isPySpace c

/-- `_normalize` of `crosscheck_engine.py`: empty for `None`/NaN, otherwise
`str(value).strip().upper()` with internal whitespace runs collapsed to a
single space. -/
def CrosscheckEngine.normalize (value : PyVal) : String :=
  match value with
  | .none => ""
  | .nan => ""
  | v =>
    String.mk (collapseRuns isPySpace ' '
      (((stripChars (pyStr v).data)).map Char.toUpper))

/-- `_normalize_numeric` of `crosscheck_engine.py`: `_normalize`, then strip
`Rp` currency markers (with optional dot and trailing spaces), then delete
every period, comma and whitespace character. -/
def CrosscheckEngine.normalize_numeric (value : PyVal) : String :=
  String.mk ((removeRpSub (CrosscheckEngine.normalize value).data).filter
    (fun c => !(isNumSep c)))

/-- `_is_numeric_field` of `crosscheck_engine.py`. -/
def CrosscheckEngine.is_numeric_field (field_name : String) : Bool :=
  field_name = "Stand Meter Awal" ∨ field_name = "Stand Meter Akhir" ∨
  field_name = "Pemakaian (kWh)" ∨ field_name = "Biaya Listrik (Rp)"

/-- `_fuzzy_contains` of `crosscheck_engine.py`: after `_normalize`, true iff
both strings are non-empty and one contains the other. -/
def CrosscheckEngine.fuzzy_contains (pdf_val excel_val : PyVal) : Bool :=
  let a := CrosscheckEngine.normalize pdf_val
  let b := CrosscheckEngine.normalize excel_val
  if a = "" ∨ b = "" then false
  else containsSeq a.data b.data || containsSeq b.data a.data

example : CrosscheckEngine.normalize_numeric (.str "532.100.012.345") = "532100012345" := by decide
example : CrosscheckEngine.normalize_numeric (.str "Rp 1.234,5") = "12345" := by decide
example : CrosscheckEngine.normalize_numeric (.str "RRPP") = "RP" := by decide
example : CrosscheckEngine.normalize_numeric (.str "RP") = "" := by decide
example : CrosscheckEngine.normalize (.str "  a   b ") = "A B" := by decide

/-- Round a rational to the nearest integer, ties to even — the behaviour of
Python `round` (the exact-arithmetic idealization of float rounding). -/
def roundHalfEven (x : ℚ) : ℤ :=
  let f := Rat.floor x
  if x - f < 1/2 then f
  else if (1/2 : ℚ) < x - f then f + 1
  else if f % 2 = 0 then f else f + 1

/-- Python `round(x, 4)` over exact rationals. -/
def round4 (x : ℚ) : ℚ := (roundHalfEven (x * 10000) : ℚ) / 10000

/-- Python `round(x, 1)` over exact rationals. -/
def round1 (x : ℚ) : ℚ := (roundHalfEven (x * 10) : ℚ) / 10

/-- Exact absolute value, written as the code's `abs`. -/
def ratAbs (x : ℚ) : ℚ := if x < 0 then -x else x

/-- Exact `min(x, 1.0)` style minimum. -/
def ratMin (x y : ℚ) : ℚ := if x ≤ y then x else y

/-- Punctuation noise stripped to spaces by `_normalize_text`
(`re.sub(r"[,\.\-\/\\]+", " ", text)`). -/
def isPunctNoise (c : Char) : Bool :=
  c = ',' ∨ c = '.' ∨ c = '-' ∨ c = '/' ∨ c = '\\'

/-- `ADDRESS_ABBREVIATIONS` of `text_similarity.py`, in source (dict) order:
each entry stands for the pattern `\b<key>\.?\b` replaced by its value. -/
def ADDRESS_ABBREVIATIONS : List (String × String) :=
  [("jl", "jalan"), ("gg", "gang"), ("rt", "rt"), ("rw", "rw"),
   ("kel", "kelurahan"), ("kec", "kecamatan"), ("kab", "kabupaten"),
   ("no", "nomor"), ("blk", "blok"), ("jkt", "jakarta"), ("tmr", "timur"),
   ("brt", "barat"), ("slt", "selatan"), ("utr", "utara"), ("ds", "desa"),
   ("perum", "perumahan"), ("komp", "kompleks")]

/-- Length of the match of `\b<w>\.?\b` at the head of `l` (`\b` before the
head is the caller's charge): the greedy `\.?` takes the dot only when the
trailing `\b` still holds behind it, otherwise backtracks. `none` when the
pattern does not match here. -/
def abbrevMatchLen (w : List Char) (l : List Char) : Option Nat :=
  if headMatches w l then
    match l.drop w.length with
    | [] => some w.length
    | '.' :: [] => some w.length
    | '.' :: d :: _ => if isWordChar d then some (w.length + 1) else some w.length
    | d :: _ => if isWordChar d then none else some w.length
  else none

/-- One pattern of the `_normalize_text` abbreviation loop:
`re.sub(rf"\b{w}\.?\b", repl, text)`.  The Boolean argument tells whether
the previous character of the original text is a word character (so `\b`
fails before the current position); the `Nat` is fuel, one unit per scan
step, each step consuming at least one character. -/
def subAbbrevF (w repl : List Char) : Nat → Bool → List Char → List Char
  | _, _, [] => []
  | 0, _, l => l
  | fuel + 1, prevWord, c :: rest =>
    match (if prevWord then Option.none else abbrevMatchLen w (c :: rest)) with
    | some L =>
      if L = 0 then c :: subAbbrevF w repl fuel (isWordChar c) rest
      else repl ++ subAbbrevF w repl fuel (L == w.length) ((c :: rest).drop L)
    | none => c :: subAbbrevF w repl fuel (isWordChar c) rest

/-- `re.sub(rf"\b{w}\.?\b", repl, text)` (case already folded by the caller,
matching the source where `lower()` precedes the abbreviation loop). -/
def subAbbrev (w repl : List Char) (l : List Char) : List Char :=
  subAbbrevF w repl l.length false l

/-- The abbreviation-expansion loop of `_normalize_text`. -/
def expandAbbrevs (l : List Char) : List Char :=
  ADDRESS_ABBREVIATIONS.foldl (fun acc p => subAbbrev p.1.data p.2.data acc) l

/-- `TextSimilarity._normalize_text`: empty for falsy input, else lower-case,
strip, expand the abbreviation dictionary, fold punctuation runs and
whitespace runs to single spaces, and strip again. -/
def TextSimilarity.normalize_text (text : PyVal) : String :=
  if truthy text = false then ""
  else
    let t0 := stripChars ((pyStr text).data.map Char.toLower)
    let t1 := expandAbbrevs t0
    let t2 := collapseRuns isPunctNoise ' ' t1
    let t3 := collapseRuns isPySpace ' ' t2
    String.mk (stripChars t3)

/-- `TextSimilarity.score`: 0 when either normalized side is empty, 1 when
the normalized sides coincide, otherwise the TF-IDF cosine similarity of the
pair rounded to 4 decimals.  The TF-IDF vectorization and cosine live in
scikit-learn (third-party library, not repository code), so they enter the
model as the explicit function argument `cos` applied to the two normalized
strings. -/
def TextSimilarity.score (cos : String → String → ℚ) (text_a text_b : PyVal) : ℚ :=
  let a := TextSimilarity.normalize_text text_a
  let b := TextSimilarity.normalize_text text_b
  if a = "" ∨ b = "" then 0
  else if a = b then 1
  else round4 (cos a b)

/-- `TextSimilarity.classify_match`. -/
def TextSimilarity.classify_match (score : ℚ) : String :=
  if score ≥ 95/100 then "EXACT"
  else if score ≥ 80/100 then "HIGH"
  else if score ≥ 60/100 then "MEDIUM"
  else if score ≥ 40/100 then "LOW"
  else "NO_MATCH"

example : TextSimilarity.normalize_text (.str "Jl. Kemang No 5") = "jalan kemang nomor 5" := by decide
example : TextSimilarity.normalize_text (.str ".") = "" := by decide
example : TextSimilarity.normalize_text (.str "  BUDI santoso ") = "budi santoso" := by decide
example : TextSimilarity.score (fun _ _ => 0) (.str ".") (.str ".") = 0 := by decide
example : TextSimilarity.score (fun _ _ => 0) (.str "a b") (.str "A  b.") = 1 := by decide

/-- Extracted-field mappings and reference rows: a key/column name maps to
`Option.none` when absent, `some v` when present with (possibly `None`/NaN)
value `v` — mirroring Python `dict.get` / pandas `Series.get`. -/
def PdfFields : Type := String → Option PyVal

/-- `fields.get(key)` (default `None`). -/
def pdfGet (f : PdfFields) (k : String) : PyVal := (f k).getD .none

/-- `fields.get(key, default)`. -/
def pdfGetD (f : PdfFields) (k : String) (d : PyVal) : PyVal := (f k).getD d

/-- Integer absolute value, the code's `abs` on exactly-represented floats. -/
def intAbs (n : Int) : Int := if n < 0 then -n else n

/-- All-decimal-digit test. -/
def allDigits (l : List Char) : Bool := l.all Char.isDigit

/-- Numeric value of a decimal digit string. -/
def digitsToNat (l : List Char) : Nat := l.foldl (fun a c => a * 10 + (c.toNat - 48)) 0

/-- Python `float(s)` on a separator-free string, restricted to
optionally-signed decimal-digit forms (which after the separator stripping of
`_to_float` / `_normalize_numeric` is the totality of well-formed numeric
data; exponent, infinity, `nan` and underscore forms are not modelled and
`"nan"` parses as a failure, which the anomaly rules cannot observe since
every comparison against NaN is falsy in Python). -/
def parseSignedInt (s : String) : Option Int :=
  match s.data with
  | [] => Option.none
  | '+' :: rest => if rest ≠ [] ∧ allDigits rest then some (digitsToNat rest : Int) else Option.none
  | '-' :: rest => if rest ≠ [] ∧ allDigits rest then some (-(digitsToNat rest : Int)) else Option.none
  | l => if allDigits l then some (digitsToNat l : Int) else Option.none

/-- `AnomalyDetector._to_float`: `None` fails; otherwise
`str(value).strip()` with `","`, `"."`, `" "`, `"Rp"`, `"rp"`, `"kWh"`,
`"kwh"` deleted (in that order), then `float(...)`; a parse failure is
`none`. -/
def AnomalyDetector.to_float (value : PyVal) : Option Int :=
  match value with
  | .none => Option.none
  | v =>
    let s0 := stripChars (pyStr v).data
    let s1 := replaceSeq [','] [] s0
    let s2 := replaceSeq ['.'] [] s1
    let s3 := replaceSeq [' '] [] s2
    let s4 := replaceSeq ['R','p'] [] s3
    let s5 := replaceSeq ['r','p'] [] s4
    let s6 := replaceSeq ['k','W','h'] [] s5
    let s7 := replaceSeq ['k','w','h'] [] s6
    parseSignedInt (String.mk s7)

/-- `AnomalyDetector._normalize_tarif`: strip+upper, drop spaces, `-`→`/`,
drop `VA` and `W` unit suffixes, strip, drop trailing `/`. -/
def AnomalyDetector.normalize_tarif (tarif : String) : String :=
  let t0 := (stripChars tarif.data).map Char.toUpper
  let t1 := replaceSeq [' '] [] t0
  let t2 := replaceSeq ['-'] ['/'] t1
  let t3 := replaceSeq ['V','A'] [] t2
  let t4 := replaceSeq ['W'] [] t3
  let t5 := stripChars t4
  String.mk (t5.reverse.dropWhile (fun c => c = '/')).reverse

/-- `TARIFF_CONSUMPTION_RANGES` of `anomaly_detector.py`. -/
def TARIFF_CONSUMPTION_RANGES : List (String × Int × Int) :=
  [("R1/450", 20, 150), ("R1/900", 50, 300), ("R1M/900", 50, 300),
   ("R1/1300", 80, 500), ("R1/2200", 100, 800), ("R2/3500", 150, 1500),
   ("R2/5500", 200, 2500), ("R3/6600", 300, 5000), ("B1/1300", 100, 1000),
   ("B1/2200", 150, 1500), ("B2/6600", 300, 5000)]

/-- `TARIFF_RATE_APPROX` of `anomaly_detector.py`. -/
def TARIFF_RATE_APPROX : List (String × Int) :=
  [("R1/450", 415), ("R1/900", 605), ("R1M/900", 1352), ("R1/1300", 1444),
   ("R1/2200", 1444), ("R2/3500", 1699), ("R2/5500", 1699), ("R3/6600", 1699),
   ("B1/1300", 1444), ("B1/2200", 1444), ("B2/6600", 1444)]

/-- Severity of an anomaly flag. -/
inductive Severity where
  | WARNING
  | CRITICAL
deriving DecidableEq, Repr

/-- One anomaly flag of `AnomalyDetector.check_single`. -/
structure AnomalyFlag where
  field : String
  severity : Severity
  message : String
  expected : String
  actual : String
deriving DecidableEq, Repr

/-- Insert a thousands separator after every three digits counted from the
right (`{:,}` grouping); operates on reversed digit lists. -/
def groupThrees : List Char → List Char
  | a :: b :: c :: d :: rest => a :: b :: c :: ',' :: groupThrees (d :: rest)
  | l => l

/-- Python `f"{x:,.0f}"` on an exact rational. -/
def commaFmt0 (x : ℚ) : String :=
  let n := roundHalfEven x
  (if n < 0 then "-" else "") ++ String.mk (groupThrees (toString n.natAbs).data.reverse).reverse

/-- Python `f"{x:.0f}"` on an exact rational. -/
def fmt0 (x : ℚ) : String := toString (roundHalfEven x)

/-- Rule 1 of `AnomalyDetector.check_single` (meter monotonicity and
consumption consistency), evaluated when both readings parse. -/
def AnomalyDetector.rule_meter (stand_awal stand_akhir pemakaian : Option Int) :
    List AnomalyFlag :=
  match stand_awal, stand_akhir with
  | some sa, some sk =>
    (if sk < sa then
      [{ field := "stand_meter_akhir", severity := .CRITICAL,
         message := "Stand meter akhir is LESS than stand meter awal (meter went backwards)",
         expected := "> " ++ pyFloatStr sa, actual := pyFloatStr sk }]
     else []) ++
    (match pemakaian with
     | some p =>
       if 1 < intAbs ((sk - sa) - p) then
         [{ field := "pemakaian_kwh", severity := .CRITICAL,
            message := "Pemakaian (" ++ pyFloatStr p ++ ") doesn\x27t match meter difference (" ++ pyFloatStr (sk - sa) ++ ")",
            expected := pyFloatStr (sk - sa), actual := pyFloatStr p }]
       else []
     | none => [])
  | _, _ => []

/-- Rule 2 of `AnomalyDetector.check_single` (consumption vs tariff range). -/
def AnomalyDetector.rule_range (pemakaian : Option Int) (tarif : String) :
    List AnomalyFlag :=
  match pemakaian with
  | some p =>
    if tarif ≠ "" then
      match TARIFF_CONSUMPTION_RANGES.lookup (AnomalyDetector.normalize_tarif tarif) with
      | some (low, high) =>
        if (p : ℚ) < (low : ℚ) * (1/2) then
          [{ field := "pemakaian_kwh", severity := .WARNING,
             message := "Unusually LOW consumption for tariff " ++ AnomalyDetector.normalize_tarif tarif,
             expected := toString low ++ " - " ++ toString high ++ " kWh",
             actual := pyFloatStr p ++ " kWh" }]
        else if (high : ℚ) * (3/2) < (p : ℚ) then
          [{ field := "pemakaian_kwh", severity := .WARNING,
             message := "Unusually HIGH consumption for tariff " ++ AnomalyDetector.normalize_tarif tarif,
             expected := toString low ++ " - " ++ toString high ++ " kWh",
             actual := pyFloatStr p ++ " kWh" }]
        else []
      | none => []
    else []
  | none => []

/-- Rule 3 of `AnomalyDetector.check_single` (billing-rate consistency). -/
def AnomalyDetector.rule_rate (pemakaian biaya : Option Int) (tarif : String) :
    List AnomalyFlag :=
  match pemakaian, biaya with
  | some p, some b =>
    if 0 < p then
      match TARIFF_RATE_APPROX.lookup (AnomalyDetector.normalize_tarif tarif) with
      | some er =>
        if er ≠ 0 then
          if 3/10 < ratAbs ((b : ℚ) / (p : ℚ) - (er : ℚ)) / (er : ℚ) then
            [{ field := "biaya_listrik", severity := .WARNING,
               message := "Billing rate Rp " ++ commaFmt0 ((b : ℚ) / (p : ℚ)) ++ "/kWh deviates " ++ fmt0 (ratAbs ((b : ℚ) / (p : ℚ) - (er : ℚ)) / (er : ℚ) * 100) ++ "% from expected Rp " ++ toString er ++ "/kWh",
               expected := "~Rp " ++ toString er ++ "/kWh (total ~Rp " ++ commaFmt0 ((er : ℚ) * (p : ℚ)) ++ ")",
               actual := "Rp " ++ commaFmt0 ((b : ℚ) / (p : ℚ)) ++ "/kWh (total Rp " ++ commaFmt0 ((b : ℚ)) ++ ")" }]
          else []
        else []
      | none => []
    else []
  | _, _ => []

/-- Rule 4a of `AnomalyDetector.check_single` (non-positive consumption). -/
def AnomalyDetector.rule_nonpos_consumption (pemakaian : Option Int) :
    List AnomalyFlag :=
  match pemakaian with
  | some p =>
    if p ≤ 0 then
      [{ field := "pemakaian_kwh", severity := .WARNING,
         message := "Zero or negative consumption", expected := "> 0",
         actual := pyFloatStr p }]
    else []
  | none => []

/-- Rule 4b of `AnomalyDetector.check_single` (non-positive billing). -/
def AnomalyDetector.rule_nonpos_billing (biaya : Option Int) : List AnomalyFlag :=
  match biaya with
  | some b =>
    if b ≤ 0 then
      [{ field := "biaya_listrik", severity := .WARNING,
         message := "Zero or negative billing amount", expected := "> 0",
         actual := pyFloatStr b }]
    else []
  | none => []

/-- `AnomalyDetector.check_single`: the deterministic rule families of the
method body, flags concatenated in source order. -/
def AnomalyDetector.check_single (fields : PdfFields) : List AnomalyFlag :=
  let stand_awal := AnomalyDetector.to_float (pdfGet fields "stand_meter_awal")
  let stand_akhir := AnomalyDetector.to_float (pdfGet fields "stand_meter_akhir")
  let pemakaian := AnomalyDetector.to_float (pdfGet fields "pemakaian_kwh")
  let biaya := AnomalyDetector.to_float (pdfGet fields "biaya_listrik")
  let tarif := String.mk ((stripChars (pyStr (pdfGetD fields "tarif_daya" (.str ""))).data).map Char.toUpper)
  AnomalyDetector.rule_meter stand_awal stand_akhir pemakaian ++
  AnomalyDetector.rule_range pemakaian tarif ++
  AnomalyDetector.rule_rate pemakaian biaya tarif ++
  AnomalyDetector.rule_nonpos_consumption pemakaian ++
  AnomalyDetector.rule_nonpos_billing biaya


example : AnomalyDetector.to_float (.str "15.5") = some 155 := by decide
example : AnomalyDetector.to_float (.str "1.234,5") = some 12345 := by decide
example : AnomalyDetector.to_float (.str "Rp 2.500") = some 2500 := by decide
example : AnomalyDetector.to_float (.str "abc") = Option.none := by decide
example : AnomalyDetector.to_float .none = Option.none := by decide
example : AnomalyDetector.normalize_tarif "r1 / 1300 VA" = "R1/1300" := by decide
example : commaFmt0 (1234567 : ℚ) = "1,234,567" := by with_unfolding_all decide
example : commaFmt0 ((-24690:ℚ)/2) = "-12,345" := by with_unfolding_all decide
example : fmt0 ((123:ℚ)/10) = "12" := by with_unfolding_all decide

/-- Python `f"{x:.2f}"` on an exact rational. -/
def fmt2 (x : ℚ) : String :=
  let n := roundHalfEven (x * 100)
  (if n < 0 then "-" else "") ++ toString (n.natAbs / 100) ++ "." ++
    (if n.natAbs % 100 < 10 then "0" else "") ++ toString (n.natAbs % 100)

/-- The tri-valued verdict of a field comparison. -/
inductive MatchStatus where
  | MATCH
  | MISMATCH
  | MISSING
deriving DecidableEq, Repr

/-- One per-field comparison record assembled by `_compare_field` (the two
similarity keys are attached later by the ML-enhancement pass of `run`). -/
structure FieldComparison where
  field_name : String
  pdf_key : String
  pdf_value : Option String
  excel_value : Option String
  match_status : MatchStatus
  notes : String
  similarity_score : Option ℚ := Option.none
  similarity_class : Option String := Option.none
deriving DecidableEq, Repr

/-- `COLUMN_TO_FIELD` of `crosscheck_engine.py` (insertion order). -/
def COLUMN_TO_FIELD : List (String × String) :=
  [("ID Pelanggan", "id_pelanggan"), ("Nama Pelanggan", "nama_pelanggan"),
   ("Alamat", "alamat"), ("Tarif/Daya", "tarif_daya"),
   ("Nomor Meter", "nomor_meter"), ("Nomor kWh", "nomor_kwh"),
   ("Periode", "periode"), ("Stand Meter Awal", "stand_meter_awal"),
   ("Stand Meter Akhir", "stand_meter_akhir"),
   ("Pemakaian (kWh)", "pemakaian_kwh"), ("Biaya Listrik (Rp)", "biaya_listrik")]

/-- `CrosscheckEngine.TEXT_FIELDS`. -/
def CrosscheckEngine.TEXT_FIELDS : List String := ["Nama Pelanggan", "Alamat"]

/-- `CrosscheckEngine._compare_field`: record the two raw values (falsy and
NaN excel values become absent), then walk the fixed decision ladder
missing → numeric → exact/contains/similarity. -/
def CrosscheckEngine.compare_field (cos : String → String → ℚ) (use_ml : Bool)
    (excel_col pdf_key : String) (pdf_value excel_value : PyVal) : FieldComparison :=
  let pv : Option String := if truthy pdf_value then some (pyStr pdf_value) else Option.none
  let ev : Option String :=
    if truthy excel_value ∧ excel_value ≠ PyVal.nan then some (pyStr excel_value) else Option.none
  let base : FieldComparison :=
    { field_name := excel_col, pdf_key := pdf_key, pdf_value := pv, excel_value := ev,
      match_status := .MISSING, notes := "" }
  if pv = Option.none ∧ ev = Option.none then
    { base with
      match_status := .MISSING, notes := "Both PDF and Excel values are empty" }
  else if pv = Option.none then
    { base with
      match_status := .MISSING, notes := "Not found in PDF document" }
  else if ev = Option.none then
    { base with
      match_status := .MISSING, notes := "Not found in Excel template" }
  else if CrosscheckEngine.is_numeric_field excel_col then
    let pn := CrosscheckEngine.normalize_numeric pdf_value
    let en := CrosscheckEngine.normalize_numeric excel_value
    if pn = en then { base with
      match_status := .MATCH, notes := "Exact numeric match" }
    else
      { base with
      match_status := .MISMATCH,
        notes := "PDF=\x27" ++ pn ++ "\x27 vs Excel=\x27" ++ en ++ "\x27" }
  else
    let pn := CrosscheckEngine.normalize pdf_value
    let en := CrosscheckEngine.normalize excel_value
    if pn = en then { base with
      match_status := .MATCH, notes := "Exact match" }
    else if CrosscheckEngine.fuzzy_contains (.str pn) (.str en) then
      { base with
      match_status := .MATCH, notes := "Partial/contains match" }
    else if use_ml ∧ excel_col ∈ CrosscheckEngine.TEXT_FIELDS then
      let sim := TextSimilarity.score cos (.str (pyStr pdf_value)) (.str (pyStr excel_value))
      let simClass := TextSimilarity.classify_match sim
      if sim ≥ 3/4 then
        { base with
      match_status := .MATCH,
          notes := "ML similarity match (" ++ simClass ++ ", score=" ++ fmt2 sim ++ ")" }
      else
        { base with
      match_status := .MISMATCH,
          notes := "ML similarity=" ++ fmt2 sim ++ " (" ++ simClass ++ "). PDF=\x27" ++
            pyStr pdf_value ++ "\x27 vs Excel=\x27" ++ pyStr excel_value ++ "\x27" }
    else
      { base with
      match_status := .MISMATCH,
        notes := "PDF=\x27" ++ pyStr pdf_value ++ "\x27 vs Excel=\x27" ++ pyStr excel_value ++ "\x27" }

/-- The per-candidate aggregate matching score accumulated by the loop body
of `CrosscheckEngine._find_matching_row`: +10 exact normalized ID, +5 exact
normalized meter number, then ML name similarity ×4 (or +3 flat containment
without ML) and ML address similarity ×2. -/
def CrosscheckEngine.row_score (cos : String → String → ℚ) (use_ml : Bool)
    (pdf : PdfFields) (row : PdfFields) : ℚ :=
  let pdf_id := CrosscheckEngine.normalize_numeric (pdfGetD pdf "id_pelanggan" (.str ""))
  let pdf_meter := CrosscheckEngine.normalize (pdfGetD pdf "nomor_meter" (.str ""))
  let pdf_name := pdfGetD pdf "nama_pelanggan" (.str "")
  let pdf_addr := pdfGetD pdf "alamat" (.str "")
  let excel_id := CrosscheckEngine.normalize_numeric (pdfGetD row "ID Pelanggan" (.str ""))
  let s1 : ℚ := if pdf_id ≠ "" ∧ excel_id ≠ "" ∧ pdf_id = excel_id then 10 else 0
  let excel_meter := CrosscheckEngine.normalize (pdfGetD row "Nomor Meter" (.str ""))
  let s2 : ℚ := if pdf_meter ≠ "" ∧ excel_meter ≠ "" ∧ pdf_meter = excel_meter then 5 else 0
  let excel_name := pyStr (pdfGetD row "Nama Pelanggan" (.str ""))
  let s3 : ℚ :=
    if truthy pdf_name ∧ excel_name ≠ "" then
      if use_ml then TextSimilarity.score cos pdf_name (.str excel_name) * 4
      else if CrosscheckEngine.fuzzy_contains pdf_name (.str excel_name) then 3
      else 0
    else 0
  let excel_addr := pyStr (pdfGetD row "Alamat" (.str ""))
  let s4 : ℚ :=
    if truthy pdf_addr ∧ excel_addr ≠ "" ∧ use_ml then
      TextSimilarity.score cos pdf_addr (.str excel_addr) * 2
    else 0
  s1 + s2 + s3 + s4

/-- The running best of `_find_matching_row`: fold over the indexed candidate
scores, displacing the incumbent only on a strictly greater score. -/
def bestOf : List ℚ → Nat → Option Nat × ℚ → Option Nat × ℚ
  | [], _, acc => acc
  | s :: rest, i, acc => bestOf rest (i + 1) (if acc.2 < s then (some i, s) else acc)

/-- The all-absent reference row (used only as the `getD` default behind an
index that is always in range). -/
def emptyRow : PdfFields := fun _ => Option.none

/-- `CrosscheckEngine._find_matching_row`: best row by score, `None` below
the fixed threshold of 3. -/
def CrosscheckEngine.find_matching_row (cos : String → String → ℚ) (use_ml : Bool)
    (pdf : PdfFields) (rows : List PdfFields) : Option Nat :=
  let best := bestOf (rows.map (CrosscheckEngine.row_score cos use_ml pdf)) 0 (Option.none, 0)
  if 3 ≤ best.2 then best.1 else Option.none

/-- `float(s) if s else 0` inside the deviation `try` blocks: the empty
normalized string counts as 0, otherwise `float` parsing. -/
def parseOrZero (s : String) : Option Int :=
  if s = "" then some 0 else parseSignedInt s

/-- `CrosscheckEngine._compute_meter_deviation`: relative deviation of the
normalized end readings, capped at 1, 0 for a zero reference, `1/2` when
`float()` fails on either side. -/
def CrosscheckEngine.compute_meter_deviation (pdf : PdfFields) (row : PdfFields) : ℚ :=
  let pa := CrosscheckEngine.normalize_numeric (pdfGetD pdf "stand_meter_akhir" (.str "0"))
  let ea := CrosscheckEngine.normalize_numeric (pdfGetD row "Stand Meter Akhir" (.str "0"))
  match parseOrZero pa, parseOrZero ea with
  | some pv, some ev =>
    if (ev : ℚ) = 0 then 0 else ratMin (ratAbs ((pv : ℚ) - (ev : ℚ)) / (ev : ℚ)) 1
  | _, _ => 1/2

/-- `CrosscheckEngine._compute_billing_deviation`: as the meter deviation,
over the billing amounts. -/
def CrosscheckEngine.compute_billing_deviation (pdf : PdfFields) (row : PdfFields) : ℚ :=
  let pb := CrosscheckEngine.normalize_numeric (pdfGetD pdf "biaya_listrik" (.str "0"))
  let eb := CrosscheckEngine.normalize_numeric (pdfGetD row "Biaya Listrik (Rp)" (.str "0"))
  match parseOrZero pb, parseOrZero eb with
  | some pv, some ev =>
    if (ev : ℚ) = 0 then 0 else ratMin (ratAbs ((pv : ℚ) - (ev : ℚ)) / (ev : ℚ)) 1
  | _, _ => 1/2

/-- `CrosscheckEngine._ml_text_similarity`: similarity score and
classification of a PDF field against an Excel column, `(0, NO_MATCH)` when
either side prints empty. -/
def CrosscheckEngine.ml_text_similarity (cos : String → String → ℚ)
    (pdf : PdfFields) (pdf_key excel_col : String) (row : PdfFields) : ℚ × String :=
  let pv := pyStr (pdfGetD pdf pdf_key (.str ""))
  let ev := pyStr (pdfGetD row excel_col (.str ""))
  if pv = "" ∨ ev = "" then (0, "NO_MATCH")
  else
    let s := TextSimilarity.score cos (.str pv) (.str ev)
    (s, TextSimilarity.classify_match s)

/-- `CrosscheckSummary` (the impure `checked_at` timestamp is not
modelled). -/
structure CrosscheckSummary where
  matched_row_index : Option Nat
  matched_row_number : Option Nat
  total_fields_checked : Nat
  total_match : Nat
  total_mismatch : Nat
  total_missing : Nat
  match_percentage : ℚ
deriving DecidableEq, Repr

/-- The composite result of `CrosscheckEngine.run`.  The three `ml_` fields
are present exactly in ML-enhanced mode; the Random-Forest confidence result
itself is computed by scikit-learn from `ml_confidence_features`, outside the
repository, so only the feature vector handed to it is modelled. -/
structure RunOutput where
  matched_row : Option Nat
  results : List FieldComparison
  summary : CrosscheckSummary
  ml_similarity : Option ((ℚ × String) × (ℚ × String)) := Option.none
  ml_anomalies : Option (List AnomalyFlag) := Option.none
  ml_confidence_features : Option (List (String × ℚ)) := Option.none
deriving DecidableEq, Repr

/-- `CrosscheckEngine._no_match_result`: every field MISSING, zero matches
and mismatches. -/
def CrosscheckEngine.no_match_result (pdf : PdfFields) : RunOutput :=
  let results := COLUMN_TO_FIELD.map (fun p =>
    { field_name := p.1, pdf_key := p.2,
      pdf_value := if truthy (pdfGet pdf p.2) then some (pyStr (pdfGet pdf p.2)) else Option.none,
      excel_value := Option.none,
      match_status := MatchStatus.MISSING,
      notes := "No matching row found in Excel template" : FieldComparison })
  { matched_row := Option.none, results := results,
    summary :=
    { matched_row_index := Option.none, matched_row_number := Option.none,
      total_fields_checked := results.length, total_match := 0,
      total_mismatch := 0, total_missing := results.length,
      match_percentage := 0 } }

/-- The per-field comparison loop of `CrosscheckEngine.run` over the matched
row. -/
def CrosscheckEngine.field_results (cos : String → String → ℚ) (use_ml : Bool)
    (pdf : PdfFields) (row : PdfFields) : List FieldComparison :=
  COLUMN_TO_FIELD.map (fun p =>
    CrosscheckEngine.compare_field cos use_ml p.1 p.2 (pdfGet pdf p.2) (pdfGet row p.1))

/-- The summary block computed by `CrosscheckEngine.run` for a matched row. -/
def CrosscheckEngine.summary_of (idx : Nat) (results : List FieldComparison) :
    CrosscheckSummary :=
  { matched_row_index := some idx, matched_row_number := some (idx + 1),
    total_fields_checked := results.length,
    total_match := results.countP (fun r => decide (r.match_status = .MATCH)),
    total_mismatch := results.countP (fun r => decide (r.match_status = .MISMATCH)),
    total_missing := results.countP (fun r => decide (r.match_status = .MISSING)),
    match_percentage :=
      if 0 < results.length then
        round1 ((results.countP (fun r => decide (r.match_status = .MATCH)) : ℚ) /
          (results.length : ℚ) * 100)
      else 0 }

/-- `CrosscheckEngine.run`: match, compare each field of the matched row,
aggregate the summary, and (in ML mode) attach similarity metadata, anomaly
flags and the confidence feature vector. -/
def CrosscheckEngine.run (cos : String → String → ℚ) (use_ml : Bool)
    (pdf : PdfFields) (rows : List PdfFields) : RunOutput :=
  match CrosscheckEngine.find_matching_row cos use_ml pdf rows with
  | Option.none => CrosscheckEngine.no_match_result pdf
  | some idx =>
    let row := rows.getD idx emptyRow
    let results := CrosscheckEngine.field_results cos use_ml pdf row
    let missing := results.countP (fun r => decide (r.match_status = .MISSING))
    let summary := CrosscheckEngine.summary_of idx results
    if use_ml then
      let nameSim := CrosscheckEngine.ml_text_similarity cos pdf "nama_pelanggan" "Nama Pelanggan" row
      let addrSim := CrosscheckEngine.ml_text_similarity cos pdf "alamat" "Alamat" row
      let results2 := results.map (fun r =>
        if r.field_name ∈ CrosscheckEngine.TEXT_FIELDS then
          let sim := if r.field_name = "Nama Pelanggan" then nameSim else addrSim
          { r with
            similarity_score := some sim.1, similarity_class := some sim.2 }
        else r)
      let flags := AnomalyDetector.check_single pdf
      let meter_dev := CrosscheckEngine.compute_meter_deviation pdf row
      let billing_dev := CrosscheckEngine.compute_billing_deviation pdf row
      { matched_row := some idx, results := results2, summary := summary,
        ml_similarity := some (nameSim, addrSim),
        ml_anomalies := some flags,
        ml_confidence_features := some
          [("match_ratio",
            if 0 < results.length then
              (results.countP (fun r => decide (r.match_status = .MATCH)) : ℚ) /
                (results.length : ℚ)
            else 0),
           ("name_similarity", nameSim.1), ("address_similarity", addrSim.1),
           ("meter_deviation", meter_dev), ("billing_deviation", billing_dev),
           ("anomaly_count", (flags.length : ℚ)),
           ("missing_fields", (missing : ℚ))] }
    else
      { matched_row := some idx, results := results, summary := summary }

/-- A trivially symmetric stand-in for the external TF-IDF cosine backend,
used by concrete witnesses (the branches they exercise never reach the
backend, or reach it only under a symmetry hypothesis). -/
def cosZ : String → String → ℚ := fun _ _ => 0

/-- Concrete extracted fields: only the customer ID, in plain digits. -/
def pdfW : PdfFields := fun k =>
  if k = "id_pelanggan" then some (.str "532100012345") else Option.none

/-- Concrete reference row: the same customer ID, dot-separated. -/
def rowW : PdfFields := fun k =>
  if k = "ID Pelanggan" then some (.str "532.100.012.345") else Option.none

/-- Concrete record for the consumption-consistency scenario: meter readings
15230 → 15480 with reported consumption 250 (consistent). -/
def f250 : PdfFields := fun k =>
  if k = "stand_meter_awal" then some (.str "15230")
  else if k = "stand_meter_akhir" then some (.str "15480")
  else if k = "pemakaian_kwh" then some (.str "250")
  else Option.none

/-- As `f250` with reported consumption 280 (inconsistent by 30). -/
def f280 : PdfFields := fun k =>
  if k = "stand_meter_awal" then some (.str "15230")
  else if k = "stand_meter_akhir" then some (.str "15480")
  else if k = "pemakaian_kwh" then some (.str "280")
  else Option.none

theorem bestOf_snd_ge (l : List ℚ) (i : Nat) (acc : Option Nat × ℚ) :
    acc.2 ≤ (bestOf l i acc).2 := by
  induction l generalizing i acc with
  | nil => simp [bestOf]
  | cons s rest ih =>
    by_cases h : acc.2 < s
    · calc acc.2 ≤ s := le_of_lt h
        _ ≤ (bestOf rest (i + 1) (some i, s)).2 := ih (i + 1) (some i, s)
        _ = (bestOf (s :: rest) i acc).2 := by simp [bestOf, if_pos h]
    · have := ih (i + 1) acc
      simpa [bestOf, if_neg h] using this

theorem bestOf_snd_mem (l : List ℚ) (i : Nat) (acc : Option Nat × ℚ) :
    ∀ s ∈ l, s ≤ (bestOf l i acc).2 := by
  induction l generalizing i acc with
  | nil => simp
  | cons s rest ih =>
    intro t ht
    rcases List.mem_cons.mp ht with h1 | h2
    · subst h1
      by_cases h : acc.2 < t
      · have h2' := bestOf_snd_ge rest (i + 1) (some i, t)
        simp only [bestOf, if_pos h]
        exact h2'
      · have h3 : t ≤ acc.2 := le_of_not_lt h
        have h4 := bestOf_snd_ge rest (i + 1) acc
        simp only [bestOf, if_neg h]
        exact le_trans h3 h4
    · by_cases h : acc.2 < s
      · have := ih (i + 1) (some i, s) t h2
        simpa [bestOf, if_pos h] using this
      · have := ih (i + 1) acc t h2
        simpa [bestOf, if_neg h] using this

theorem bestOf_fst_spec (l : List ℚ) (i : Nat) (acc : Option Nat × ℚ) :
    bestOf l i acc = acc ∨
    ∃ k, k < l.length ∧ (bestOf l i acc).1 = some (i + k) ∧
      (bestOf l i acc).2 = l.getD k 0 ∧ acc.2 < l.getD k 0 ∧
      ∀ m, m < k → l.getD m 0 < l.getD k 0 := by
  induction l generalizing i acc with
  | nil => left; rfl
  | cons s rest ih =>
    by_cases h : acc.2 < s
    · have hstep : bestOf (s :: rest) i acc = bestOf rest (i + 1) (some i, s) := by
        simp [bestOf, if_pos h]
      rcases ih (i + 1) (some i, s) with h1 | ⟨k, hk, hfst, hsnd, hgt, hall⟩
      · right
        refine ⟨0, by simp, ?_, ?_, ?_, ?_⟩
        · rw [hstep, h1]; simp
        · rw [hstep, h1]; simp [List.getD]
        · simpa [List.getD] using h
        · intro m hm; omega
      · right
        refine ⟨k + 1, by simpa using hk, ?_, ?_, ?_, ?_⟩
        · rw [hstep, hfst]; congr 1; omega
        · rw [hstep, hsnd]; simp [List.getD]
        · have h2 : s < rest.getD k 0 := hgt
          have h3 : (s :: rest).getD (k + 1) 0 = rest.getD k 0 := by simp [List.getD]
          rw [h3]
          exact lt_trans h h2
        · intro m hm
          cases m with
          | zero =>
            have h2 : (some i, s).2 < rest.getD k 0 := hgt
            simpa [List.getD] using lt_of_le_of_lt (le_refl s) h2
          | succ m' =>
            have := hall m' (by omega)
            simpa [List.getD] using this
    · have hstep : bestOf (s :: rest) i acc = bestOf rest (i + 1) acc := by
        simp [bestOf, if_neg h]
      rcases ih (i + 1) acc with h1 | ⟨k, hk, hfst, hsnd, hgt, hall⟩
      · left; rw [hstep, h1]
      · right
        refine ⟨k + 1, by simpa using hk, ?_, ?_, ?_, ?_⟩
        · rw [hstep, hfst]; congr 1; omega
        · rw [hstep, hsnd]; simp [List.getD]
        · simpa [List.getD] using hgt
        · intro m hm
          cases m with
          | zero =>
            have h3 : s ≤ acc.2 := le_of_not_lt h
            have := lt_of_le_of_lt h3 hgt
            simpa [List.getD] using this
          | succ m' =>
            have := hall m' (by omega)
            simpa [List.getD] using this

theorem getD_map_score (f : PdfFields → ℚ) (rows : List PdfFields) (j : Nat)
    (hj : j < rows.length) :
    (rows.map f).getD j 0 = f (rows.getD j emptyRow) := by
  induction rows generalizing j with
  | nil => simp at hj
  | cons r rest ih =>
    cases j with
    | zero => simp [List.getD]
    | succ j' =>
      simp only [List.map_cons, List.getD_cons_succ]
      exact ih j' (by simpa using Nat.lt_of_succ_lt_succ hj)

theorem getD_mem_of_lt (l : List ℚ) (j : Nat) (hj : j < l.length) :
    l.getD j 0 ∈ l := by
  induction l generalizing j with
  | nil => simp at hj
  | cons s rest ih =>
    cases j with
    | zero => simp [List.getD]
    | succ j' =>
      simp only [List.getD_cons_succ]
      exact List.mem_cons_of_mem s (ih j' (by simpa using Nat.lt_of_succ_lt_succ hj))

theorem find_matching_row_spec (cos : String → String → ℚ) (use_ml : Bool)
    (pdf : PdfFields) (rows : List PdfFields) (i : Nat)
    (h : CrosscheckEngine.find_matching_row cos use_ml pdf rows = some i) :
    i < rows.length ∧
    3 ≤ CrosscheckEngine.row_score cos use_ml pdf (rows.getD i emptyRow) ∧
    (∀ j, j < i →
      CrosscheckEngine.row_score cos use_ml pdf (rows.getD j emptyRow) <
      CrosscheckEngine.row_score cos use_ml pdf (rows.getD i emptyRow)) ∧
    (∀ j, j < rows.length →
      CrosscheckEngine.row_score cos use_ml pdf (rows.getD j emptyRow) ≤
      CrosscheckEngine.row_score cos use_ml pdf (rows.getD i emptyRow)) := by
  classical
  unfold CrosscheckEngine.find_matching_row at h
  set f := CrosscheckEngine.row_score cos use_ml pdf with hf
  set scores := rows.map f with hscores
  set best := bestOf scores 0 (Option.none, 0) with hbest
  by_cases hth : (3 : ℚ) ≤ best.2
  · rw [if_pos hth] at h
    rcases bestOf_fst_spec scores 0 (Option.none, 0) with h1 | ⟨k, hk, hfst, hsnd, _, hall⟩
    · rw [← hbest] at h1
      rw [h1] at h
      simp at h
    · rw [← hbest] at hfst hsnd
      rw [hfst] at h
      have hik : i = k := by simpa using h.symm
      subst hik
      have hlen : scores.length = rows.length := by simp [hscores]
      have hi : i < rows.length := by omega
      have hscore_i : scores.getD i 0 = f (rows.getD i emptyRow) :=
        getD_map_score f rows i hi
      refine ⟨hi, ?_, ?_, ?_⟩
      · rw [← hscore_i, ← hsnd]; exact hth
      · intro j hj
        have hj' : j < rows.length := by omega
        have := hall j hj
        rw [getD_map_score f rows j hj', hscore_i] at this
        simpa [Nat.zero_add] using this
      · intro j hj
        have hmem : scores.getD j 0 ∈ scores := getD_mem_of_lt scores j (by omega)
        have := bestOf_snd_mem scores 0 (Option.none, 0) _ hmem
        rw [← hbest, hsnd] at this
        rw [getD_map_score f rows j hj, hscore_i] at this
        exact this
  · rw [if_neg hth] at h
    simp at h

/-- The shape of the consumption-consistency flag: `CRITICAL` severity on the
`pemakaian_kwh` field (the only CRITICAL flag that rule family ever places on
that field). -/
def isConsCritFlag (fl : AnomalyFlag) : Bool :=
  decide (fl.field = "pemakaian_kwh" ∧ fl.severity = Severity.CRITICAL)

theorem rule_range_no_crit (p : Option Int) (t : String) :
    (AnomalyDetector.rule_range p t).filter isConsCritFlag = [] := by
  apply List.filter_eq_nil_iff.mpr
  intro fl hfl
  unfold AnomalyDetector.rule_range at hfl
  generalize TARIFF_CONSUMPTION_RANGES.lookup (AnomalyDetector.normalize_tarif t) = lk at hfl
  repeat' split at hfl
  all_goals
    first
    | exact absurd hfl (List.not_mem_nil fl)
    | (rw [List.mem_singleton] at hfl; subst hfl; simp [isConsCritFlag])

theorem rule_rate_no_crit (p b : Option Int) (t : String) :
    (AnomalyDetector.rule_rate p b t).filter isConsCritFlag = [] := by
  apply List.filter_eq_nil_iff.mpr
  intro fl hfl
  unfold AnomalyDetector.rule_rate at hfl
  generalize TARIFF_RATE_APPROX.lookup (AnomalyDetector.normalize_tarif t) = lk at hfl
  repeat' split at hfl
  all_goals
    first
    | exact absurd hfl (List.not_mem_nil fl)
    | (rw [List.mem_singleton] at hfl; subst hfl; simp [isConsCritFlag])

theorem rule_nonpos_consumption_no_crit (p : Option Int) :
    (AnomalyDetector.rule_nonpos_consumption p).filter isConsCritFlag = [] := by
  apply List.filter_eq_nil_iff.mpr
  intro fl hfl
  unfold AnomalyDetector.rule_nonpos_consumption at hfl
  repeat' split at hfl
  all_goals
    first
    | exact absurd hfl (List.not_mem_nil fl)
    | (rw [List.mem_singleton] at hfl; subst hfl; simp [isConsCritFlag])

theorem rule_nonpos_billing_no_crit (b : Option Int) :
    (AnomalyDetector.rule_nonpos_billing b).filter isConsCritFlag = [] := by
  apply List.filter_eq_nil_iff.mpr
  intro fl hfl
  unfold AnomalyDetector.rule_nonpos_billing at hfl
  repeat' split at hfl
  all_goals
    first
    | exact absurd hfl (List.not_mem_nil fl)
    | (rw [List.mem_singleton] at hfl; subst hfl; simp [isConsCritFlag])

theorem rule_meter_filter (sa sk p : Int) :
    (AnomalyDetector.rule_meter (some sa) (some sk) (some p)).filter isConsCritFlag =
    (if 1 < intAbs ((sk - sa) - p) then
      [{ field := "pemakaian_kwh", severity := .CRITICAL,
         message := "Pemakaian (" ++ pyFloatStr p ++ ") doesn\x27t match meter difference (" ++ pyFloatStr (sk - sa) ++ ")",
         expected := pyFloatStr (sk - sa), actual := pyFloatStr p }]
     else []) := by
  simp only [AnomalyDetector.rule_meter]
  rw [List.filter_append]
  have h1 : (if sk < sa then
      [{ field := "stand_meter_akhir", severity := Severity.CRITICAL,
         message := "Stand meter akhir is LESS than stand meter awal (meter went backwards)",
         expected := "> " ++ pyFloatStr sa, actual := pyFloatStr sk : AnomalyFlag }]
     else []).filter isConsCritFlag = [] := by
    split_ifs <;> simp [isConsCritFlag]
  rw [h1, List.nil_append]
  by_cases h : 1 < intAbs ((sk - sa) - p)
  · rw [if_pos h]
    simp [List.filter, isConsCritFlag]
  · rw [if_neg h]
    rfl

set_option maxRecDepth 2000 in
/-- Claim C5: whenever the start reading, end reading and reported
consumption all parse, `check_single` emits a CRITICAL consumption-
consistency flag (CRITICAL on field `pemakaian_kwh`) exactly when
the reported consumption differs from the meter difference by more than 1,
and that flag names the expected meter difference and the reported value;
at readings 15230 → 15480, reported consumption 250 yields no flag at all
while 280 yields the CRITICAL flag citing expected 250. -/
theorem claim_C5 :
    (∀ (fields : PdfFields) (sa sk p : Int),
      AnomalyDetector.to_float (pdfGet fields "stand_meter_awal") = some sa →
      AnomalyDetector.to_float (pdfGet fields "stand_meter_akhir") = some sk →
      AnomalyDetector.to_float (pdfGet fields "pemakaian_kwh") = some p →
      (AnomalyDetector.check_single fields).filter isConsCritFlag =
        (if 1 < intAbs ((sk - sa) - p) then
          [{ field := "pemakaian_kwh", severity := .CRITICAL,
             message := "Pemakaian (" ++ pyFloatStr p ++ ") doesn\x27t match meter difference (" ++ pyFloatStr (sk - sa) ++ ")",
             expected := pyFloatStr (sk - sa), actual := pyFloatStr p }]
         else [])) ∧
    AnomalyDetector.check_single f250 = [] ∧
    AnomalyDetector.check_single f280 =
      [{ field := "pemakaian_kwh", severity := .CRITICAL,
         message := "Pemakaian (280.0) doesn\x27t match meter difference (250.0)",
         expected := "250.0", actual := "280.0" }] := by
  refine ⟨?_, ?_, ?_⟩
  · intro fields sa sk p hsa hsk hp
    simp only [AnomalyDetector.check_single]
    rw [hsa, hsk, hp]
    rw [List.filter_append, List.filter_append, List.filter_append, List.filter_append]
    rw [rule_meter_filter, rule_range_no_crit, rule_rate_no_crit,
      rule_nonpos_consumption_no_crit, rule_nonpos_billing_no_crit]
    simp
  · with_unfolding_all decide
  · with_unfolding_all decide

set_option maxRecDepth 2000 in
/-- Witness for the hypotheses of `claim_C5`: the consumption-280 record
parses to the concrete readings and the theorem instantiates on it. -/
theorem claim_C5_witness :
    (AnomalyDetector.to_float (pdfGet f280 "stand_meter_awal") = some 15230 ∧
     AnomalyDetector.to_float (pdfGet f280 "stand_meter_akhir") = some 15480 ∧
     AnomalyDetector.to_float (pdfGet f280 "pemakaian_kwh") = some 280) ∧
    (AnomalyDetector.check_single f280).filter isConsCritFlag =
      (if 1 < intAbs ((15480 - 15230) - 280) then
        [{ field := "pemakaian_kwh", severity := .CRITICAL,
           message := "Pemakaian (" ++ pyFloatStr 280 ++ ") doesn\x27t match meter difference (" ++ pyFloatStr (15480 - 15230) ++ ")",
           expected := pyFloatStr (15480 - 15230), actual := pyFloatStr 280 }]
       else []) := by
  refine ⟨⟨?_, ?_, ?_⟩, ?_⟩
  · decide
  · decide
  · decide
  · exact claim_C5.1 f280 15230 15480 280 (by decide) (by decide) (by decide)

theorem run_of_find_none (cos : String → String → ℚ) (use_ml : Bool)
    (pdf : PdfFields) (rows : List PdfFields)
    (h : CrosscheckEngine.find_matching_row cos use_ml pdf rows = Option.none) :
    CrosscheckEngine.run cos use_ml pdf rows = CrosscheckEngine.no_match_result pdf := by
  unfold CrosscheckEngine.run
  rw [h]

theorem run_summary_of_find_some (cos : String → String → ℚ) (use_ml : Bool)
    (pdf : PdfFields) (rows : List PdfFields) (idx : Nat)
    (h : CrosscheckEngine.find_matching_row cos use_ml pdf rows = some idx) :
    (CrosscheckEngine.run cos use_ml pdf rows).summary =
      CrosscheckEngine.summary_of idx
        (CrosscheckEngine.field_results cos use_ml pdf (rows.getD idx emptyRow)) := by
  unfold CrosscheckEngine.run
  rw [h]
  cases use_ml <;> rfl

theorem no_match_result_facts (pdf : PdfFields) :
    (CrosscheckEngine.no_match_result pdf).matched_row = Option.none ∧
    (CrosscheckEngine.no_match_result pdf).results.length = 11 ∧
    (∀ r ∈ (CrosscheckEngine.no_match_result pdf).results,
      r.match_status = MatchStatus.MISSING) ∧
    (CrosscheckEngine.no_match_result pdf).summary.total_match = 0 ∧
    (CrosscheckEngine.no_match_result pdf).summary.total_mismatch = 0 ∧
    (CrosscheckEngine.no_match_result pdf).summary.total_missing =
      (CrosscheckEngine.no_match_result pdf).summary.total_fields_checked ∧
    (CrosscheckEngine.no_match_result pdf).summary.total_fields_checked = 11 := by
  refine ⟨rfl, ?_, ?_, rfl, rfl, rfl, ?_⟩
  · simp [CrosscheckEngine.no_match_result, COLUMN_TO_FIELD]
  · intro r hr
    simp only [CrosscheckEngine.no_match_result, List.mem_map] at hr
    obtain ⟨p, _, hp⟩ := hr
    rw [← hp]
  · simp [CrosscheckEngine.no_match_result, COLUMN_TO_FIELD]

theorem length_eq_count_statuses (l : List FieldComparison) :
    l.length = l.countP (fun r => decide (r.match_status = MatchStatus.MATCH)) +
      l.countP (fun r => decide (r.match_status = MatchStatus.MISMATCH)) +
      l.countP (fun r => decide (r.match_status = MatchStatus.MISSING)) := by
  induction l with
  | nil => rfl
  | cons a t ih =>
    rcases h : a.match_status <;>
      simp [List.countP_cons, h, ih] <;> omega

/-- Claim C1: a row is selected as the match only when its aggregate score
reaches the threshold 3; and when no candidate reaches it, `run` returns the
defined all-MISSING composite: no matched row, 11 field comparisons all
MISSING, `total_match = 0`, `total_mismatch = 0`, and
`total_missing = total_fields_checked`. -/
theorem claim_C1 (cos : String → String → ℚ) (use_ml : Bool) (pdf : PdfFields)
    (rows : List PdfFields) :
    (∀ i, CrosscheckEngine.find_matching_row cos use_ml pdf rows = some i →
      3 ≤ CrosscheckEngine.row_score cos use_ml pdf (rows.getD i emptyRow)) ∧
    (CrosscheckEngine.find_matching_row cos use_ml pdf rows = Option.none →
      (CrosscheckEngine.run cos use_ml pdf rows).matched_row = Option.none ∧
      (CrosscheckEngine.run cos use_ml pdf rows).results.length = 11 ∧
      (∀ r ∈ (CrosscheckEngine.run cos use_ml pdf rows).results,
        r.match_status = MatchStatus.MISSING) ∧
      (CrosscheckEngine.run cos use_ml pdf rows).summary.total_match = 0 ∧
      (CrosscheckEngine.run cos use_ml pdf rows).summary.total_mismatch = 0 ∧
      (CrosscheckEngine.run cos use_ml pdf rows).summary.total_missing =
        (CrosscheckEngine.run cos use_ml pdf rows).summary.total_fields_checked) := by
  constructor
  · intro i hi
    exact (find_matching_row_spec cos use_ml pdf rows i hi).2.1
  · intro h
    rw [run_of_find_none cos use_ml pdf rows h]
    obtain ⟨h1, h2, h3, h4, h5, h6, _⟩ := no_match_result_facts pdf
    exact ⟨h1, h2, h3, h4, h5, h6⟩

/-- Witness for `claim_C1`: a one-row collection whose ID matches (score 10,
row selected) and the empty collection (no match). -/
theorem claim_C1_witness :
    (3 ≤ CrosscheckEngine.row_score cosZ false pdfW ([rowW].getD 0 emptyRow)) ∧
    ((CrosscheckEngine.run cosZ false pdfW []).matched_row = Option.none ∧
     (CrosscheckEngine.run cosZ false pdfW []).results.length = 11 ∧
     (∀ r ∈ (CrosscheckEngine.run cosZ false pdfW []).results,
       r.match_status = MatchStatus.MISSING) ∧
     (CrosscheckEngine.run cosZ false pdfW []).summary.total_match = 0 ∧
     (CrosscheckEngine.run cosZ false pdfW []).summary.total_mismatch = 0 ∧
     (CrosscheckEngine.run cosZ false pdfW []).summary.total_missing =
       (CrosscheckEngine.run cosZ false pdfW []).summary.total_fields_checked) :=
  ⟨(claim_C1 cosZ false pdfW [rowW]).1 0 (by with_unfolding_all decide),
   (claim_C1 cosZ false pdfW []).2 (by with_unfolding_all decide)⟩

/-- Claim C3: the summary counts always partition the checked fields
(`total_fields_checked = total_match + total_mismatch + total_missing`), and
every comparison carries exactly one of the three statuses. -/
theorem claim_C3 (cos : String → String → ℚ) (use_ml : Bool) (pdf : PdfFields)
    (rows : List PdfFields) :
    (CrosscheckEngine.run cos use_ml pdf rows).summary.total_fields_checked =
      (CrosscheckEngine.run cos use_ml pdf rows).summary.total_match +
      (CrosscheckEngine.run cos use_ml pdf rows).summary.total_mismatch +
      (CrosscheckEngine.run cos use_ml pdf rows).summary.total_missing ∧
    ∀ r ∈ (CrosscheckEngine.run cos use_ml pdf rows).results,
      r.match_status = MatchStatus.MATCH ∨ r.match_status = MatchStatus.MISMATCH ∨
      r.match_status = MatchStatus.MISSING := by
  constructor
  · rcases hfind : CrosscheckEngine.find_matching_row cos use_ml pdf rows with _ | idx
    · rw [run_of_find_none cos use_ml pdf rows hfind]
      simp [CrosscheckEngine.no_match_result]
    · rw [run_summary_of_find_some cos use_ml pdf rows idx hfind]
      exact length_eq_count_statuses _
  · intro r _
    rcases h : r.match_status <;> simp

/-- An arbitrary but fixed comparison record, used as `getD` default. -/
def fcDefault : FieldComparison :=
  { field_name := "", pdf_key := "", pdf_value := Option.none,
    excel_value := Option.none, match_status := .MISSING, notes := "" }

/-- Witness for `claim_C3` on a concrete matched run: the summary of the
one-row crosscheck partitions, and the first comparison of the result list
has a status among the three. -/
theorem claim_C3_witness :
    ((CrosscheckEngine.run cosZ false pdfW [rowW]).summary.total_fields_checked =
      (CrosscheckEngine.run cosZ false pdfW [rowW]).summary.total_match +
      (CrosscheckEngine.run cosZ false pdfW [rowW]).summary.total_mismatch +
      (CrosscheckEngine.run cosZ false pdfW [rowW]).summary.total_missing) ∧
    (((CrosscheckEngine.run cosZ false pdfW [rowW]).results.getD 0 fcDefault).match_status = MatchStatus.MATCH ∨
     ((CrosscheckEngine.run cosZ false pdfW [rowW]).results.getD 0 fcDefault).match_status = MatchStatus.MISMATCH ∨
     ((CrosscheckEngine.run cosZ false pdfW [rowW]).results.getD 0 fcDefault).match_status = MatchStatus.MISSING) :=
  ⟨(claim_C3 cosZ false pdfW [rowW]).1,
   (claim_C3 cosZ false pdfW [rowW]).2
     ((CrosscheckEngine.run cosZ false pdfW [rowW]).results.getD 0 fcDefault)
     (by with_unfolding_all decide)⟩

/-- Claim C4: a selected row beats every earlier candidate strictly and every
candidate weakly, so equal-best candidates are resolved to the smallest row
index; concretely, two identical rows that both score 10 select index 0. -/
theorem claim_C4 :
    (∀ (cos : String → String → ℚ) (use_ml : Bool) (pdf : PdfFields)
       (rows : List PdfFields) (i : Nat),
      CrosscheckEngine.find_matching_row cos use_ml pdf rows = some i →
      3 ≤ CrosscheckEngine.row_score cos use_ml pdf (rows.getD i emptyRow) ∧
      (∀ j, j < i →
        CrosscheckEngine.row_score cos use_ml pdf (rows.getD j emptyRow) <
        CrosscheckEngine.row_score cos use_ml pdf (rows.getD i emptyRow)) ∧
      (∀ j, j < rows.length →
        CrosscheckEngine.row_score cos use_ml pdf (rows.getD j emptyRow) ≤
        CrosscheckEngine.row_score cos use_ml pdf (rows.getD i emptyRow))) ∧
    CrosscheckEngine.find_matching_row cosZ false pdfW [rowW, rowW] = some 0 := by
  constructor
  · intro cos use_ml pdf rows i hi
    obtain ⟨_, h2, h3, h4⟩ := find_matching_row_spec cos use_ml pdf rows i hi
    exact ⟨h2, h3, h4⟩
  · with_unfolding_all decide

/-- Witness for `claim_C4` at the two-identical-rows tie. -/
theorem claim_C4_witness :
    3 ≤ CrosscheckEngine.row_score cosZ false pdfW ([rowW, rowW].getD 0 emptyRow) ∧
    (∀ j, j < 0 →
      CrosscheckEngine.row_score cosZ false pdfW ([rowW, rowW].getD j emptyRow) <
      CrosscheckEngine.row_score cosZ false pdfW ([rowW, rowW].getD 0 emptyRow)) ∧
    (∀ j, j < [rowW, rowW].length →
      CrosscheckEngine.row_score cosZ false pdfW ([rowW, rowW].getD j emptyRow) ≤
      CrosscheckEngine.row_score cosZ false pdfW ([rowW, rowW].getD 0 emptyRow)) :=
  claim_C4.1 cosZ false pdfW [rowW, rowW] 0 (by with_unfolding_all decide)

theorem charToNat_ofNat_valid (n : Nat) (h : n.isValidChar) : (Char.ofNat n).toNat = n := by
  unfold Char.ofNat
  rw [dif_pos h]
  rfl

theorem toUpper_not_lower (a : Char) : (a.toUpper).isLower = false := by
  unfold Char.toUpper Char.isLower
  by_cases h : a.toNat ≥ 97 ∧ a.toNat ≤ 122
  · rw [if_pos h]
    have hvalid : (a.toNat - 32).isValidChar := by
      unfold Nat.isValidChar
      left
      omega
    have ht : (Char.ofNat (a.toNat - 32)).toNat = a.toNat - 32 :=
      charToNat_ofNat_valid _ hvalid
    have hlt : ¬ ((97 : UInt32) ≤ (Char.ofNat (a.toNat - 32)).val) := by
      intro hc
      have hc' : (97 : UInt32).toNat ≤ (Char.ofNat (a.toNat - 32)).val.toNat := hc
      have h97 : (97 : UInt32).toNat = 97 := rfl
      have ht' : (Char.ofNat (a.toNat - 32)).val.toNat = a.toNat - 32 := ht
      omega
    simp [hlt]
  · rw [if_neg h]
    simp only [Bool.and_eq_false_iff, decide_eq_false_iff_not]
    by_cases h1 : (97 : UInt32) ≤ a.val
    · right
      intro hc
      exact h ⟨h1, hc⟩
    · left
      exact h1

theorem toUpper_toUpper (a : Char) : (a.toUpper).toUpper = a.toUpper := by
  have h := toUpper_not_lower a
  unfold Char.isLower at h
  simp only [Bool.and_eq_false_iff, decide_eq_false_iff_not] at h
  show (if (Char.toUpper a).toNat ≥ 97 ∧ (Char.toUpper a).toNat ≤ 122 then
      Char.ofNat ((Char.toUpper a).toNat - 32) else Char.toUpper a) = Char.toUpper a
  rw [if_neg]
  rintro ⟨h1, h2⟩
  rcases h with h3 | h3
  · exact h3 h1
  · exact h3 h2

theorem mem_rpAux (mode : RpMode) (l : List Char) (c : Char) (hc : c ∈ rpAux mode l) :
    c ∈ l := by
  induction mode, l using rpAux.induct with
  | case1 mode => simp [rpAux.eq_1] at hc
  | case2 mode c1 rest hcond ih =>
    rcases rest with _ | ⟨c2, rest2⟩
    · rw [rpAux.eq_2, if_pos hcond, rpAux.eq_1] at hc
      simp at hc
    · rw [rpAux.eq_3, if_pos hcond] at hc
      exact List.mem_cons_of_mem c1 (ih hc)
  | case3 mode c1 hcond =>
    rw [rpAux.eq_2, if_neg hcond] at hc
    simpa using hc
  | case4 mode c1 hcond c2 rest2 hpair ih =>
    rw [rpAux.eq_3, if_neg hcond, if_pos hpair] at hc
    exact List.mem_cons_of_mem c1 (List.mem_cons_of_mem c2 (ih hc))
  | case5 mode c1 hcond c2 rest2 hpair ih =>
    rw [rpAux.eq_3, if_neg hcond, if_neg hpair] at hc
    rcases List.mem_cons.mp hc with h1 | h2
    · exact h1 ▸ List.mem_cons_self c1 _
    · exact List.mem_cons_of_mem c1 (ih h2)

theorem mem_collapseRunsAux (p : Char → Bool) (r : Char) (b : Bool) (l : List Char)
    (c : Char) (hc : c ∈ collapseRunsAux p r b l) : c = r ∨ c ∈ l := by
  induction l generalizing b with
  | nil => simp [collapseRunsAux] at hc
  | cons a rest ih =>
    rw [collapseRunsAux] at hc
    by_cases hp : p a
    · rw [if_pos hp] at hc
      cases b with
      | true =>
        simp only [if_pos rfl] at hc
        rcases ih true hc with h | h
        · exact Or.inl h
        · exact Or.inr (List.mem_cons_of_mem a h)
      | false =>
        simp only [Bool.false_eq_true, if_false] at hc
        rcases List.mem_cons.mp hc with h | h
        · exact Or.inl h
        · rcases ih true h with h' | h'
          · exact Or.inl h'
          · exact Or.inr (List.mem_cons_of_mem a h')
    · rw [if_neg hp] at hc
      rcases List.mem_cons.mp hc with h | h
      · exact Or.inr (h ▸ List.mem_cons_self a rest)
      · rcases ih false h with h' | h'
        · exact Or.inl h'
        · exact Or.inr (List.mem_cons_of_mem a h')

theorem mem_stripChars (l : List Char) (c : Char) (hc : c ∈ stripChars l) : c ∈ l := by
  unfold stripChars at hc
  rw [List.mem_reverse] at hc
  have h1 := (List.dropWhile_sublist (p := isPySpace)
    (l := (l.dropWhile isPySpace).reverse)).mem hc
  rw [List.mem_reverse] at h1
  exact (List.dropWhile_sublist (p := isPySpace) (l := l)).mem h1

/-- A list with an adjacent `R`/`r`-`P`/`p` pair somewhere (the pattern the
`Rp` regex can still consume). -/
def hasRpPair : List Char → Bool
  | c1 :: c2 :: rest =>
    decide ((c1 = 'R' ∨ c1 = 'r') ∧ (c2 = 'P' ∨ c2 = 'p')) || hasRpPair (c2 :: rest)
  | _ => false

theorem rpAux_normal_eq_self (l : List Char) (h : hasRpPair l = false) :
    rpAux RpMode.normal l = l := by
  induction l with
  | nil => rw [rpAux.eq_1]
  | cons c1 rest ih =>
    rcases rest with _ | ⟨c2, rest2⟩
    · rw [rpAux.eq_2, if_neg]
      rintro (⟨hmode, _⟩ | ⟨hmode, _⟩) <;> exact RpMode.noConfusion hmode
    · rw [hasRpPair] at h
      simp only [Bool.or_eq_false_iff, decide_eq_false_iff_not] at h
      rw [rpAux.eq_3, if_neg, if_neg h.1]
      · rw [ih h.2]
      · rintro (⟨hmode, _⟩ | ⟨hmode, _⟩) <;> exact RpMode.noConfusion hmode

theorem removeRpSub_eq_self (l : List Char) (h : hasRpPair l = false) :
    removeRpSub l = l := rpAux_normal_eq_self l h

theorem dropWhile_eq_self_of_none (p : Char → Bool) (l : List Char)
    (h : ∀ c ∈ l, p c = false) : l.dropWhile p = l := by
  cases l with
  | nil => rfl
  | cons a rest =>
    rw [List.dropWhile_cons]
    simp [h a (List.mem_cons_self a rest)]

theorem stripChars_eq_self_of (l : List Char)
    (h : ∀ c ∈ l, isPySpace c = false) : stripChars l = l := by
  unfold stripChars
  rw [dropWhile_eq_self_of_none _ _ h]
  rw [dropWhile_eq_self_of_none]
  · exact List.reverse_reverse l
  · intro c hc
    exact h c (List.mem_reverse.mp hc)

theorem collapseRunsAux_eq_self (p : Char → Bool) (r : Char) (b : Bool)
    (l : List Char) (h : ∀ c ∈ l, p c = false) : collapseRunsAux p r b l = l := by
  induction l generalizing b with
  | nil => rfl
  | cons a rest ih =>
    rw [collapseRunsAux]
    rw [if_neg]
    · rw [ih false (fun c hc => h c (List.mem_cons_of_mem a hc))]
    · simp [h a (List.mem_cons_self a rest)]

theorem map_eq_self_of (f : Char → Char) (l : List Char)
    (h : ∀ c ∈ l, f c = c) : l.map f = l := by
  induction l with
  | nil => rfl
  | cons a rest ih =>
    rw [List.map_cons, h a (List.mem_cons_self a rest),
      ih (fun c hc => h c (List.mem_cons_of_mem a hc))]

theorem normalize_numeric_chars (v : PyVal) :
    ∀ c ∈ (CrosscheckEngine.normalize_numeric v).data,
      isNumSep c = false ∧ c.toUpper = c := by
  intro c hc
  have hc' : c ∈ (removeRpSub (CrosscheckEngine.normalize v).data).filter
      (fun c => !(isNumSep c)) := hc
  rw [List.mem_filter] at hc'
  obtain ⟨hmem, hpred⟩ := hc'
  have hsep : isNumSep c = false := by simpa using hpred
  refine ⟨hsep, ?_⟩
  have h2 : c ∈ (CrosscheckEngine.normalize v).data := mem_rpAux _ _ _ hmem
  rcases v with _ | _ | s | n
  · simp [CrosscheckEngine.normalize] at h2
  · simp [CrosscheckEngine.normalize] at h2
  · have h3 := mem_collapseRunsAux isPySpace ' ' false
      ((stripChars (pyStr (.str s)).data).map Char.toUpper) c h2
    rcases h3 with h3 | h3
    · exfalso
      rw [h3] at hsep
      simp [isNumSep, isPySpace] at hsep
    · rw [List.mem_map] at h3
      obtain ⟨a, _, ha⟩ := h3
      rw [← ha]
      exact toUpper_toUpper a
  · have h3 := mem_collapseRunsAux isPySpace ' ' false
      ((stripChars (pyStr (.int n)).data).map Char.toUpper) c h2
    rcases h3 with h3 | h3
    · exfalso
      rw [h3] at hsep
      simp [isNumSep, isPySpace] at hsep
    · rw [List.mem_map] at h3
      obtain ⟨a, _, ha⟩ := h3
      rw [← ha]
      exact toUpper_toUpper a

theorem normalize_of_clean (y : String)
    (hs : ∀ c ∈ y.data, isPySpace c = false ∧ c.toUpper = c) :
    CrosscheckEngine.normalize (.str y) = y := by
  obtain ⟨ld⟩ := y
  show String.mk (collapseRuns isPySpace ' '
    ((stripChars (pyStr (.str (String.mk ld))).data).map Char.toUpper)) = String.mk ld
  have hd : (pyStr (.str (String.mk ld))).data = ld := rfl
  rw [hd]
  rw [stripChars_eq_self_of ld (fun c hc => (hs c hc).1)]
  rw [map_eq_self_of Char.toUpper ld (fun c hc => (hs c hc).2)]
  unfold collapseRuns
  rw [collapseRunsAux_eq_self isPySpace ' ' false ld (fun c hc => (hs c hc).1)]

/-- Counterexample to claim C6 as stated: numeric normalization is not
idempotent.  On `"RRPP"` the first pass removes the inner `RP` pair, gluing
the outer `R` and `P` into a fresh `"RP"` that a second pass removes. -/
theorem claim_C6_counterexample :
    CrosscheckEngine.normalize_numeric
        (.str (CrosscheckEngine.normalize_numeric (.str "RRPP"))) ≠
      CrosscheckEngine.normalize_numeric (.str "RRPP") ∧
    CrosscheckEngine.normalize_numeric (.str "RRPP") = "RP" ∧
    CrosscheckEngine.normalize_numeric
      (.str (CrosscheckEngine.normalize_numeric (.str "RRPP"))) = "" := by
  refine ⟨?_, by decide, by decide⟩
  decide

/-- Claim C6 amended: numeric normalization is idempotent on every value
whose normalized form contains no adjacent `R`/`r`-`P`/`p` pair (the second
pass differs exactly by removing such re-created currency-marker pairs, as
on `"RRPP"`). -/
theorem claim_C6_amended (v : PyVal)
    (h : hasRpPair (CrosscheckEngine.normalize_numeric v).data = false) :
    CrosscheckEngine.normalize_numeric
        (.str (CrosscheckEngine.normalize_numeric v)) =
      CrosscheckEngine.normalize_numeric v := by
  have hs := normalize_numeric_chars v
  have h1 : CrosscheckEngine.normalize (.str (CrosscheckEngine.normalize_numeric v)) =
      CrosscheckEngine.normalize_numeric v := by
    apply normalize_of_clean
    intro c hc
    obtain ⟨hsep, hup⟩ := hs c hc
    refine ⟨?_, hup⟩
    simp only [isNumSep, Bool.or_eq_false_iff, decide_eq_false_iff_not] at hsep
    push_neg at hsep
    simpa using hsep.2.2
  conv_lhs => rw [CrosscheckEngine.normalize_numeric]
  rw [h1]
  rw [removeRpSub_eq_self _ h]
  have hfilter : (CrosscheckEngine.normalize_numeric v).data.filter
      (fun c => !(isNumSep c)) = (CrosscheckEngine.normalize_numeric v).data := by
    rw [List.filter_eq_self]
    intro c hc
    simp [(hs c hc).1]
  rw [hfilter]

/-- Witness for `claim_C6_amended` at a value whose normalization is
`RP`-free. -/
theorem claim_C6_witness :
    hasRpPair (CrosscheckEngine.normalize_numeric (.str "Rp 1.234,5")).data = false ∧
    CrosscheckEngine.normalize_numeric
        (.str (CrosscheckEngine.normalize_numeric (.str "Rp 1.234,5"))) =
      CrosscheckEngine.normalize_numeric (.str "Rp 1.234,5") :=
  ⟨by decide, claim_C6_amended (.str "Rp 1.234,5") (by decide)⟩

/-- Counterexample to claim C7 as stated: the scorer is not reflexive at 1.0
on every non-empty string — a pure-punctuation string such as `"."`
normalizes to empty, so `score(".", ".") = 0.0` although `"."` is
non-empty (the cosine backend is never consulted on this input). -/
theorem claim_C7_counterexample :
    TextSimilarity.score cosZ (.str ".") (.str ".") = 0 ∧ ("." : String) ≠ "" := by
  constructor
  · decide
  · decide

/-- Claim C7 amended: for any symmetric cosine backend the scorer is
symmetric on all pairs, and reflexive at 1.0 exactly on the values whose
normalized text is non-empty. -/
theorem claim_C7_amended (cos : String → String → ℚ)
    (hsym : ∀ x y, cos x y = cos y x) :
    (∀ a b : PyVal, TextSimilarity.score cos a b = TextSimilarity.score cos b a) ∧
    (∀ a : PyVal, TextSimilarity.normalize_text a ≠ "" →
      TextSimilarity.score cos a a = 1) := by
  constructor
  · intro a b
    unfold TextSimilarity.score
    by_cases h1 : TextSimilarity.normalize_text a = "" ∨ TextSimilarity.normalize_text b = ""
    · rw [if_pos h1, if_pos (Or.symm h1)]
    · rw [if_neg h1, if_neg (fun hc => h1 (Or.symm hc))]
      by_cases h2 : TextSimilarity.normalize_text a = TextSimilarity.normalize_text b
      · rw [if_pos h2, if_pos h2.symm]
      · rw [if_neg h2, if_neg (fun hc => h2 hc.symm)]
        rw [hsym]
  · intro a hne
    unfold TextSimilarity.score
    rw [if_neg (by simp [hne]), if_pos rfl]

/-- Witness for `claim_C7_amended` with the trivially symmetric backend. -/
theorem claim_C7_witness :
    TextSimilarity.score cosZ (.str "budi") (.str "jalan") =
      TextSimilarity.score cosZ (.str "jalan") (.str "budi") ∧
    TextSimilarity.normalize_text (.str "budi") ≠ "" ∧
    TextSimilarity.score cosZ (.str "budi") (.str "budi") = 1 :=
  ⟨(claim_C7_amended cosZ (fun _ _ => rfl)).1 _ _,
   by decide,
   (claim_C7_amended cosZ (fun _ _ => rfl)).2 _ (by decide)⟩

/-- Claim C2: the per-candidate score is the additive sum of exactly the four
signals — +10 for equal non-empty normalized IDs, +5 for equal non-empty
normalized meter numbers, similarity × 4 for names and × 2 for addresses
when similarity scoring is enabled, and a flat +3 containment fallback for
names (with no address contribution) when it is disabled; and the extracted
ID `"532100012345"` meets reference ID `"532.100.012.345"` on the +10
signal (both normalize to the same non-empty digit string, and that
candidate scores exactly 10 without similarity scoring). -/
theorem claim_C2 (cos : String → String → ℚ) (pdf row : PdfFields) :
    (CrosscheckEngine.row_score cos true pdf row =
      (if CrosscheckEngine.normalize_numeric (pdfGetD pdf "id_pelanggan" (.str "")) ≠ "" ∧
          CrosscheckEngine.normalize_numeric (pdfGetD row "ID Pelanggan" (.str "")) ≠ "" ∧
          CrosscheckEngine.normalize_numeric (pdfGetD pdf "id_pelanggan" (.str "")) =
            CrosscheckEngine.normalize_numeric (pdfGetD row "ID Pelanggan" (.str ""))
       then 10 else 0) +
      (if CrosscheckEngine.normalize (pdfGetD pdf "nomor_meter" (.str "")) ≠ "" ∧
          CrosscheckEngine.normalize (pdfGetD row "Nomor Meter" (.str "")) ≠ "" ∧
          CrosscheckEngine.normalize (pdfGetD pdf "nomor_meter" (.str "")) =
            CrosscheckEngine.normalize (pdfGetD row "Nomor Meter" (.str ""))
       then 5 else 0) +
      (if truthy (pdfGetD pdf "nama_pelanggan" (.str "")) ∧
          pyStr (pdfGetD row "Nama Pelanggan" (.str "")) ≠ ""
       then TextSimilarity.score cos (pdfGetD pdf "nama_pelanggan" (.str ""))
              (.str (pyStr (pdfGetD row "Nama Pelanggan" (.str "")))) * 4
       else 0) +
      (if truthy (pdfGetD pdf "alamat" (.str "")) ∧
          pyStr (pdfGetD row "Alamat" (.str "")) ≠ ""
       then TextSimilarity.score cos (pdfGetD pdf "alamat" (.str ""))
              (.str (pyStr (pdfGetD row "Alamat" (.str "")))) * 2
       else 0)) ∧
    (CrosscheckEngine.row_score cos false pdf row =
      (if CrosscheckEngine.normalize_numeric (pdfGetD pdf "id_pelanggan" (.str "")) ≠ "" ∧
          CrosscheckEngine.normalize_numeric (pdfGetD row "ID Pelanggan" (.str "")) ≠ "" ∧
          CrosscheckEngine.normalize_numeric (pdfGetD pdf "id_pelanggan" (.str "")) =
            CrosscheckEngine.normalize_numeric (pdfGetD row "ID Pelanggan" (.str ""))
       then 10 else 0) +
      (if CrosscheckEngine.normalize (pdfGetD pdf "nomor_meter" (.str "")) ≠ "" ∧
          CrosscheckEngine.normalize (pdfGetD row "Nomor Meter" (.str "")) ≠ "" ∧
          CrosscheckEngine.normalize (pdfGetD pdf "nomor_meter" (.str "")) =
            CrosscheckEngine.normalize (pdfGetD row "Nomor Meter" (.str ""))
       then 5 else 0) +
      (if (truthy (pdfGetD pdf "nama_pelanggan" (.str "")) ∧
           pyStr (pdfGetD row "Nama Pelanggan" (.str "")) ≠ "") ∧
          CrosscheckEngine.fuzzy_contains (pdfGetD pdf "nama_pelanggan" (.str ""))
            (.str (pyStr (pdfGetD row "Nama Pelanggan" (.str ""))))
       then 3 else 0)) ∧
    CrosscheckEngine.normalize_numeric (.str "532100012345") = "532100012345" ∧
    CrosscheckEngine.normalize_numeric (.str "532.100.012.345") = "532100012345" ∧
    CrosscheckEngine.row_score cosZ false pdfW rowW = 10 := by
  refine ⟨?_, ?_, by decide, by decide, by with_unfolding_all decide⟩
  · unfold CrosscheckEngine.row_score
    simp only [if_true, and_true]
  · unfold CrosscheckEngine.row_score
    by_cases hname : truthy (pdfGetD pdf "nama_pelanggan" (.str "")) ∧
        pyStr (pdfGetD row "Nama Pelanggan" (.str "")) ≠ ""
    · by_cases hfc : CrosscheckEngine.fuzzy_contains (pdfGetD pdf "nama_pelanggan" (.str ""))
          (.str (pyStr (pdfGetD row "Nama Pelanggan" (.str "")))) = true
      · simp [hname, hfc]
      · simp [hname, hfc]
    · simp [hname]

/-- Claim C8: each deviation feature is total — `1/2` exactly on a parse
failure of either normalized side, `0` on a zero reference value, and
otherwise the relative deviation `min(|pdf − reference| / reference, 1)`. -/
theorem claim_C8 (pdf row : PdfFields) :
    ((parseOrZero (CrosscheckEngine.normalize_numeric
        (pdfGetD pdf "stand_meter_akhir" (.str "0"))) = Option.none ∨
      parseOrZero (CrosscheckEngine.normalize_numeric
        (pdfGetD row "Stand Meter Akhir" (.str "0"))) = Option.none) →
      CrosscheckEngine.compute_meter_deviation pdf row = 1/2) ∧
    (∀ pv ev : Int,
      parseOrZero (CrosscheckEngine.normalize_numeric
        (pdfGetD pdf "stand_meter_akhir" (.str "0"))) = some pv →
      parseOrZero (CrosscheckEngine.normalize_numeric
        (pdfGetD row "Stand Meter Akhir" (.str "0"))) = some ev →
      CrosscheckEngine.compute_meter_deviation pdf row =
        (if (ev : ℚ) = 0 then 0
         else ratMin (ratAbs ((pv : ℚ) - (ev : ℚ)) / (ev : ℚ)) 1)) ∧
    ((parseOrZero (CrosscheckEngine.normalize_numeric
        (pdfGetD pdf "biaya_listrik" (.str "0"))) = Option.none ∨
      parseOrZero (CrosscheckEngine.normalize_numeric
        (pdfGetD row "Biaya Listrik (Rp)" (.str "0"))) = Option.none) →
      CrosscheckEngine.compute_billing_deviation pdf row = 1/2) ∧
    (∀ pv ev : Int,
      parseOrZero (CrosscheckEngine.normalize_numeric
        (pdfGetD pdf "biaya_listrik" (.str "0"))) = some pv →
      parseOrZero (CrosscheckEngine.normalize_numeric
        (pdfGetD row "Biaya Listrik (Rp)" (.str "0"))) = some ev →
      CrosscheckEngine.compute_billing_deviation pdf row =
        (if (ev : ℚ) = 0 then 0
         else ratMin (ratAbs ((pv : ℚ) - (ev : ℚ)) / (ev : ℚ)) 1)) := by
  refine ⟨?_, ?_, ?_, ?_⟩
  · intro h
    simp only [CrosscheckEngine.compute_meter_deviation]
    rcases h1 : parseOrZero (CrosscheckEngine.normalize_numeric
        (pdfGetD pdf "stand_meter_akhir" (.str "0"))) with _ | pv <;>
      rcases h2 : parseOrZero (CrosscheckEngine.normalize_numeric
        (pdfGetD row "Stand Meter Akhir" (.str "0"))) with _ | ev
    · rfl
    · rfl
    · rfl
    · rw [h1, h2] at h
      simp at h
  · intro pv ev h1 h2
    simp only [CrosscheckEngine.compute_meter_deviation]
    rw [h1, h2]
  · intro h
    simp only [CrosscheckEngine.compute_billing_deviation]
    rcases h1 : parseOrZero (CrosscheckEngine.normalize_numeric
        (pdfGetD pdf "biaya_listrik" (.str "0"))) with _ | pv <;>
      rcases h2 : parseOrZero (CrosscheckEngine.normalize_numeric
        (pdfGetD row "Biaya Listrik (Rp)" (.str "0"))) with _ | ev
    · rfl
    · rfl
    · rfl
    · rw [h1, h2] at h
      simp at h
  · intro pv ev h1 h2
    simp only [CrosscheckEngine.compute_billing_deviation]
    rw [h1, h2]

/-- The record for the compute-deviation parse-failure witness: an
end-reading that normalizes to letters. -/
def fBad : PdfFields := fun k =>
  if k = "stand_meter_akhir" then some (.str "ab") else Option.none

/-- Witness for `claim_C8`: a letter-valued end reading is the parse-failure
sentinel case; both-default billing values hit the zero-reference case. -/
theorem claim_C8_witness :
    CrosscheckEngine.compute_meter_deviation fBad emptyRow = 1/2 ∧
    CrosscheckEngine.compute_billing_deviation fBad emptyRow =
      (if (((0 : Int)) : ℚ) = 0 then 0
       else ratMin (ratAbs ((((0 : Int)) : ℚ) - (((0 : Int)) : ℚ)) / (((0 : Int)) : ℚ)) 1) :=
  ⟨(claim_C8 fBad emptyRow).1 (Or.inl (by decide)),
   (claim_C8 fBad emptyRow).2.2.2 0 0 (by decide) (by decide)⟩

theorem compare_field_pdf_falsy (cos : String → String → ℚ) (use_ml : Bool)
    (excel_col pdf_key : String) (v w : PyVal) (h : truthy v = false) :
    (CrosscheckEngine.compare_field cos use_ml excel_col pdf_key v w).pdf_value =
      Option.none ∧
    (CrosscheckEngine.compare_field cos use_ml excel_col pdf_key v w).match_status =
      MatchStatus.MISSING := by
  unfold CrosscheckEngine.compare_field
  simp only [h, Bool.false_eq_true, if_false]
  by_cases hev : (if truthy w ∧ w ≠ PyVal.nan then some (pyStr w) else Option.none) =
      Option.none
  · simp [hev]
  · simp [hev]

theorem compare_field_excel_falsy (cos : String → String → ℚ) (use_ml : Bool)
    (excel_col pdf_key : String) (v w : PyVal)
    (h : truthy w = false ∨ w = PyVal.nan) :
    (CrosscheckEngine.compare_field cos use_ml excel_col pdf_key v w).excel_value =
      Option.none ∧
    (CrosscheckEngine.compare_field cos use_ml excel_col pdf_key v w).match_status =
      MatchStatus.MISSING := by
  unfold CrosscheckEngine.compare_field
  have hev : ¬ (truthy w = true ∧ w ≠ PyVal.nan) := by
    rintro ⟨h1, h2⟩
    rcases h with h3 | h3
    · rw [h1] at h3
      exact Bool.noConfusion h3
    · exact h2 h3
  simp only [if_neg hev]
  by_cases hpv : (if truthy v then some (pyStr v) else Option.none) = Option.none
  · simp [hpv]
  · simp [hpv]

/-- Claim C9 (implicit behaviour): any falsy raw value — `None`, empty
string, the number 0 — and any NaN reference value is recorded as absent
before comparison, so the field is MISSING; in particular a 0 value on
either side always yields MISSING, never MATCH or MISMATCH. -/
theorem claim_C9 (cos : String → String → ℚ) (use_ml : Bool)
    (excel_col pdf_key : String) (v w : PyVal) :
    (truthy v = false →
      (CrosscheckEngine.compare_field cos use_ml excel_col pdf_key v w).pdf_value =
        Option.none ∧
      (CrosscheckEngine.compare_field cos use_ml excel_col pdf_key v w).match_status =
        MatchStatus.MISSING) ∧
    (truthy w = false ∨ w = PyVal.nan →
      (CrosscheckEngine.compare_field cos use_ml excel_col pdf_key v w).excel_value =
        Option.none ∧
      (CrosscheckEngine.compare_field cos use_ml excel_col pdf_key v w).match_status =
        MatchStatus.MISSING) ∧
    (CrosscheckEngine.compare_field cos use_ml excel_col pdf_key (.int 0) w).match_status =
      MatchStatus.MISSING ∧
    (CrosscheckEngine.compare_field cos use_ml excel_col pdf_key v (.int 0)).match_status =
      MatchStatus.MISSING :=
  ⟨compare_field_pdf_falsy cos use_ml excel_col pdf_key v w,
   compare_field_excel_falsy cos use_ml excel_col pdf_key v w,
   (compare_field_pdf_falsy cos use_ml excel_col pdf_key (.int 0) w (by decide)).2,
   (compare_field_excel_falsy cos use_ml excel_col pdf_key v (.int 0)
     (Or.inl (by decide))).2⟩

/-- Witness for `claim_C9`: a zero meter reading against a present reference
value is reported MISSING. -/
theorem claim_C9_witness :
    truthy (PyVal.int 0) = false ∧
    (CrosscheckEngine.compare_field cosZ false "Stand Meter Awal" "stand_meter_awal"
      (.int 0) (.str "500")).pdf_value = Option.none ∧
    (CrosscheckEngine.compare_field cosZ false "Stand Meter Awal" "stand_meter_awal"
      (.int 0) (.str "500")).match_status = MatchStatus.MISSING :=
  ⟨by decide,
   ((claim_C9 cosZ false "Stand Meter Awal" "stand_meter_awal" (.int 0) (.str "500")).1
     (by decide)).1,
   ((claim_C9 cosZ false "Stand Meter Awal" "stand_meter_awal" (.int 0) (.str "500")).1
     (by decide)).2⟩

/-- Claim C10 (implicit behaviour): both numeric coercions delete every
period, comma and space before parsing, so decimal-formatted values are read
at their concatenated-digit magnitude: `"15.5"` coerces to 155.0 and
`"1.234,5"` to 12345.0, numeric normalization leaves no separator character
in its output, and the numeric field comparison rates `"15.5"` and `"155"`
a MATCH. -/
theorem claim_C10 :
    AnomalyDetector.to_float (.str "15.5") = some 155 ∧
    AnomalyDetector.to_float (.str "1.234,5") = some 12345 ∧
    CrosscheckEngine.normalize_numeric (.str "15.5") = "155" ∧
    CrosscheckEngine.normalize_numeric (.str "1.234,5") = "12345" ∧
    (∀ v : PyVal, ∀ c ∈ (CrosscheckEngine.normalize_numeric v).data,
      isNumSep c = false) ∧
    (CrosscheckEngine.compare_field cosZ false "Pemakaian (kWh)" "pemakaian_kwh"
      (.str "15.5") (.str "155")).match_status = MatchStatus.MATCH := by
  refine ⟨by decide, by decide, by decide, by decide, ?_, by decide⟩
  intro v c hc
  exact (normalize_numeric_chars v c hc).1

/-- Witness for the membership hypothesis of `claim_C10`: the surviving
letter of `"A.B"` is separator-free. -/
theorem claim_C10_witness :
    'A' ∈ (CrosscheckEngine.normalize_numeric (.str "A.B")).data ∧
    isNumSep 'A' = false :=
  ⟨by decide, claim_C10.2.2.2.2.1 (.str "A.B") 'A' (by decide)⟩
